import Mathlib

/-!
Verification of the volcano `usage` scheduler plugin
(`pkg/scheduler/plugins/usage/usage.go`).

Shallow embedding conventions:
- Go `float64` values (utilization percentages, thresholds, scores) are
  modelled as `ℚ`; the arithmetic performed by the plugin (subtraction,
  division by 100, multiplication) is exact on the values of interest.
- Go `int` is modelled as `ℤ`.
- Go maps are modelled as association lists; a Go map read without the
  comma-ok form yields the zero value for a missing key, modelled by
  `usageOrZero`.
- `framework.Arguments` (`map[string]interface{}`) is modelled as an
  association list from `String` to a dynamic value type `ArgValue`
  covering the cases the plugin inspects (int, string, nested map).
- The stateful parts of `OnSessionOpen` (the global `source.Period`
  indicator, the metrics refresh, the snapshot copy) are modelled by
  explicit state passing; the order of the bootstrap's side effects is
  recorded as a list of `BootstrapEvent`s.
-/

/-- Dynamic value occurring in plugin arguments: models Go `interface{}`
restricted to the shapes the plugin inspects. `other` stands for any value
that is neither an int, a string, nor a `map[interface{}]interface{}`. -/
inductive ArgValue where
  | int : ℤ → ArgValue
  | str : String → ArgValue
  | map : List (ArgValue × ArgValue) → ArgValue
  | other : ArgValue

/-- Models `framework.Arguments = map[string]interface{}`. -/
def Arguments : Type := List (String × ArgValue)

/-- Go map lookup on an `Arguments` value (comma-ok form). -/
def lookupArg : List (String × ArgValue) → String → Option ArgValue
  | [], _ => none
  | (k, v) :: rest, key => if k = key then some v else lookupArg rest key

/-- Constant `thresholdSection = "thresholds"` from the source. -/
def thresholdSection : String := "thresholds"

/-- Constant `AVG = "average"` from the source. -/
def AVG : String := "average"

/-- `MaxNodeScore` from `k8s.io/kubernetes/pkg/scheduler/framework`, the
external scheduling framework's fixed scoring upper bound; its value is 100. -/
def MaxNodeScore : ℤ := 100

/-- Models `api.NodeUsage`: per-node maps from sample-period label to average
utilization percentage, for CPU and memory. -/
structure ResourceUsage where
  CPUUsageAvg : List (String × ℚ)
  MEMUsageAvg : List (String × ℚ)

/-- Go map lookup with the comma-ok form on a utilization map. -/
def lookupUsage : List (String × ℚ) → String → Option ℚ
  | [], _ => none
  | (k, v) :: rest, key => if k = key then some v else lookupUsage rest key

/-- Go map read without comma-ok: a missing key yields the zero value 0. -/
def usageOrZero (m : List (String × ℚ)) (key : String) : ℚ :=
  (lookupUsage m key).getD 0

/-- The parts of `api.NodeInfo` the plugin reads. -/
structure NodeInfo where
  Name : String
  ResourceUsage : ResourceUsage

/-- The parts of `api.TaskInfo` the plugin reads. -/
structure TaskInfo where
  Namespace : String
  Name : String

/-- The `usagePlugin` struct from the source. -/
structure UsagePlugin where
  pluginArguments : List (String × ArgValue)
  weight : ℤ
  usageType : String
  cpuThresholds : ℚ
  memThresholds : ℚ
  SamplePeriods : String

/-- Modelled from the spec: `framework.Arguments.GetInt` is declared outside
this file's sources; per the spec, weight is "read as an integer-valued
argument"; "on absence or wrong type, keep default (no error raised)". -/
def getIntArg (args : List (String × ArgValue)) (key : String) (dflt : ℤ) : ℤ :=
  match lookupArg args key with
  | some (ArgValue.int n) => n
  | _ => dflt

/-- The `New` constructor: builds a plugin with the defaults
(weight 1, usageType "average", thresholds 80/80, period "10m"), then reads
"usage.weight", "type" and "period" from the arguments, each kept at its
default when absent or of the wrong dynamic type. -/
def New (args : List (String × ArgValue)) : UsagePlugin :=
  let p0 : UsagePlugin :=
    { pluginArguments := args
      weight := 1
      usageType := AVG
      cpuThresholds := 80
      memThresholds := 80
      SamplePeriods := "10m" }
  let p1 : UsagePlugin := { p0 with weight := getIntArg args "usage.weight" p0.weight }
  let p2 : UsagePlugin :=
    match lookupArg args "type" with
    | some (ArgValue.str s) => { p1 with usageType := s }
    | _ => p1
  match lookupArg args "period" with
  | some (ArgValue.str s) => { p2 with SamplePeriods := s }
  | _ => p2

/-- Go's one-result type assertion `k.(string)` with the ok ignored:
a non-string yields the zero value `""`. -/
def goAsString : ArgValue → String
  | ArgValue.str s => s
  | _ => ""

/-- Go's one-result type assertion `v.(int)` with the ok ignored:
a non-int yields the zero value `0`. -/
def goAsInt : ArgValue → ℤ
  | ArgValue.int n => n
  | _ => 0

/-- Go's `argsValue.(map[interface{}]interface{})` with ignored failure:
a non-map yields the nil map, over which `range` iterates zero times. -/
def asThresholdMap : ArgValue → List (ArgValue × ArgValue)
  | ArgValue.map m => m
  | _ => []

/-- One iteration of the `for k, v := range args` loop in `OnSessionOpen`:
`key, _ := k.(string)`, `value, _ := v.(int)`, then the switch assigning
`cpuThresholds` or `memThresholds` to `float64(value)`. -/
def applyThresholdEntry (p : UsagePlugin) (kv : ArgValue × ArgValue) : UsagePlugin :=
  let key := goAsString kv.1
  let value := goAsInt kv.2
  if key = "cpu" then { p with cpuThresholds := (value : ℚ) }
  else if key = "mem" then { p with memThresholds := (value : ℚ) }
  else p

/-- The whole threshold-parsing loop of `OnSessionOpen` applied to the value
found under the "thresholds" key. -/
def applyThresholds (p : UsagePlugin) (argsValue : ArgValue) : UsagePlugin :=
  (asThresholdMap argsValue).foldl applyThresholdEntry p

/-- The structured content of the rejection message built by `predicateFn`:
the node name, the measured value and the threshold, for the metric that
exceeded its threshold. -/
inductive UsageReject where
  | cpuExceeds : String → ℚ → ℚ → UsageReject
  | memExceeds : String → ℚ → ℚ → UsageReject

/-- `predicateFn` from `OnSessionOpen`: with a non-empty sample period,
reject when the node's CPU (then memory) utilization for the period strictly
exceeds the corresponding threshold; otherwise pass (`none`). -/
def predicateFn (up : UsagePlugin) (task : TaskInfo) (node : NodeInfo) :
    Option UsageReject :=
  if up.SamplePeriods ≠ "" then
    if usageOrZero node.ResourceUsage.CPUUsageAvg up.SamplePeriods > up.cpuThresholds then
      some (UsageReject.cpuExceeds node.Name
        (usageOrZero node.ResourceUsage.CPUUsageAvg up.SamplePeriods) up.cpuThresholds)
    else if usageOrZero node.ResourceUsage.MEMUsageAvg up.SamplePeriods > up.memThresholds then
      some (UsageReject.memExceeds node.Name
        (usageOrZero node.ResourceUsage.MEMUsageAvg up.SamplePeriods) up.memThresholds)
    else none
  else none

/-- `nodeOrderFn` from `OnSessionOpen`: returns the pair (score, error).
With an empty period, or no CPU utilization entry for the period, the score
is 0; otherwise `(100 - cpuUsage) / 100 * float64(MaxNodeScore * weight)`.
The error component is always `none` (the Go function always returns nil). -/
def nodeOrderFn (up : UsagePlugin) (task : TaskInfo) (node : NodeInfo) :
    ℚ × Option String :=
  if up.SamplePeriods = "" then (0, none)
  else
    match lookupUsage node.ResourceUsage.CPUUsageAvg up.SamplePeriods with
    | none => (0, none)
    | some cpuUsage =>
        (((100 : ℚ) - cpuUsage) / 100 * ((MaxNodeScore * up.weight : ℤ) : ℚ), none)

/-- The cache handle obtained from `ssn.GetCache()`: `isSchedulerCache`
records whether the dynamic downcast `.(*cache.SchedulerCache)` succeeds, and
`Nodes` is the cache-held per-node state (`schedulerCache.Nodes`) as observed
after `GetMetricsData` has refreshed it. -/
structure Cache where
  isSchedulerCache : Bool
  Nodes : String → ResourceUsage

/-- The parts of `framework.Session` the plugin touches. -/
structure Session where
  NodeList : List NodeInfo
  cache : Cache

/-- The observable side effects of the bootstrap block in `OnSessionOpen`,
in order: the assignment to the global `source.Period`, the call to
`GetMetricsData`, and the copy of snapshots from the cache into the
session's node list. -/
inductive BootstrapEvent where
  | setPeriod : String → BootstrapEvent
  | getMetricsData : BootstrapEvent
  | copySnapshots : BootstrapEvent

/-- The result of one `OnSessionOpen` call: the plugin after threshold
parsing (the functions registered with the session close over this value),
the new value of the global `source.Period`, whether the bootstrap block
ran, its ordered side effects, and the session's node list afterwards. -/
structure SessionOpenResult where
  plugin : UsagePlugin
  Period : String
  bootstrapRan : Bool
  events : List BootstrapEvent
  NodeList : List NodeInfo

/-- `OnSessionOpen` (logging elided): if the arguments carry a "thresholds"
section, parse it into the plugin; then, if the global `source.Period` is
empty, set it to the plugin's sample period, call `GetMetricsData`, and — when
the cache downcast succeeds — overwrite every session node's `ResourceUsage`
with the cache's entry for that node's name. -/
def OnSessionOpen (up : UsagePlugin) (ssn : Session) (sourcePeriod : String) :
    SessionOpenResult :=
  match lookupArg up.pluginArguments thresholdSection with
  | some argsValue =>
      let up2 := applyThresholds up argsValue
      if sourcePeriod = "" then
        if ssn.cache.isSchedulerCache then
          { plugin := up2
            Period := up2.SamplePeriods
            bootstrapRan := true
            events := [BootstrapEvent.setPeriod up2.SamplePeriods,
                       BootstrapEvent.getMetricsData,
                       BootstrapEvent.copySnapshots]
            NodeList := ssn.NodeList.map
              (fun n => { n with ResourceUsage := ssn.cache.Nodes n.Name }) }
        else
          { plugin := up2
            Period := up2.SamplePeriods
            bootstrapRan := true
            events := [BootstrapEvent.setPeriod up2.SamplePeriods,
                       BootstrapEvent.getMetricsData]
            NodeList := ssn.NodeList }
      else
        { plugin := up2
          Period := sourcePeriod
          bootstrapRan := false
          events := []
          NodeList := ssn.NodeList }
  | none =>
      { plugin := up
        Period := sourcePeriod
        bootstrapRan := false
        events := []
        NodeList := ssn.NodeList }

/-- A process lifetime: a sequence of session openings threaded through the
global `source.Period`, returning the final period together with the number
of sessions in which the bootstrap block ran. -/
def runSessions : List (UsagePlugin × Session) → String → String × ℕ
  | [], period => (period, 0)
  | (up, ssn) :: rest, period =>
      let r := OnSessionOpen up ssn period
      let t := runSessions rest r.Period
      (t.1, (if r.bootstrapRan then 1 else 0) + t.2)

/-! Concrete fixtures used by witnesses and counterexamples. -/

/-- The plugin resolved from an empty configuration. -/
def pDefault : UsagePlugin := New []

/-- A default plugin whose sample period has been configured empty. -/
def pEmptyPeriod : UsagePlugin := { pDefault with SamplePeriods := "" }

/-- A concrete task. -/
def wTask : TaskInfo := { Namespace := "ns", Name := "t" }

/-- A node whose stored CPU and memory utilization for "10m" is 95. -/
def wBusyNode : NodeInfo :=
  { Name := "n1"
    ResourceUsage := { CPUUsageAvg := [("10m", 95)], MEMUsageAvg := [("10m", 95)] } }

/-- A node sitting exactly at the default thresholds for "10m". -/
def wBoundaryNode : NodeInfo :=
  { Name := "n2"
    ResourceUsage := { CPUUsageAvg := [("10m", 80)], MEMUsageAvg := [("10m", 80)] } }

/-- A node with no utilization entries at all. -/
def wEmptyNode : NodeInfo :=
  { Name := "n0", ResourceUsage := { CPUUsageAvg := [], MEMUsageAvg := [] } }

/-- A node with CPU utilization 30 for "10m". -/
def wNode30 : NodeInfo :=
  { Name := "n30"
    ResourceUsage := { CPUUsageAvg := [("10m", 30)], MEMUsageAvg := [("10m", 30)] } }

/-- A node with CPU utilization 60 for "10m". -/
def wNode60 : NodeInfo :=
  { Name := "n60"
    ResourceUsage := { CPUUsageAvg := [("10m", 60)], MEMUsageAvg := [("10m", 60)] } }

/-- A session with an empty node list whose cache downcast fails. -/
def negSession : Session :=
  { NodeList := []
    cache := { isSchedulerCache := false
               Nodes := fun _ => { CPUUsageAvg := [], MEMUsageAvg := [] } } }

/-! The claims. -/

/-- Claim C8: resolving an empty (argument-free) configuration yields the
defaults weight = 1, usageMode = "average", samplePeriod = "10m",
cpuThresholdPct = 80, memThresholdPct = 80; resolution is a total function,
so it always succeeds. -/
theorem New_empty_defaults :
    New [] = { pluginArguments := []
               weight := 1
               usageType := "average"
               cpuThresholds := 80
               memThresholds := 80
               SamplePeriods := "10m" } := rfl

/-- Claim C4: with an empty samplePeriod, the filter passes unconditionally
and the score is 0 with no error, regardless of the node's stored
utilization values. -/
theorem empty_samplePeriod_pass_and_zero (up : UsagePlugin) (task : TaskInfo)
    (node : NodeInfo) (hp : up.SamplePeriods = "") :
    predicateFn up task node = none ∧ nodeOrderFn up task node = (0, none) := by
  constructor
  · simp [predicateFn, hp]
  · simp [nodeOrderFn, hp]

/-- Witness for claim C4 at a node whose stored utilizations are 95. -/
theorem empty_samplePeriod_pass_and_zero_witness :
    predicateFn pEmptyPeriod wTask wBusyNode = none
  ∧ nodeOrderFn pEmptyPeriod wTask wBusyNode = (0, none) :=
  empty_samplePeriod_pass_and_zero pEmptyPeriod wTask wBusyNode rfl

/-- Claim C2: with a non-empty samplePeriod, utilization exactly equal to its
threshold passes (both metrics at their thresholds yield a pass), while a
looked-up utilization strictly greater than its threshold is rejected. -/
theorem predicate_threshold_boundary (up : UsagePlugin) (task : TaskInfo)
    (node : NodeInfo) (hp : up.SamplePeriods ≠ "") :
    (usageOrZero node.ResourceUsage.CPUUsageAvg up.SamplePeriods = up.cpuThresholds →
     usageOrZero node.ResourceUsage.MEMUsageAvg up.SamplePeriods = up.memThresholds →
     predicateFn up task node = none)
  ∧ (up.cpuThresholds < usageOrZero node.ResourceUsage.CPUUsageAvg up.SamplePeriods →
     (predicateFn up task node).isSome = true)
  ∧ (up.memThresholds < usageOrZero node.ResourceUsage.MEMUsageAvg up.SamplePeriods →
     (predicateFn up task node).isSome = true) := by
  refine ⟨?_, ?_, ?_⟩
  · intro hc hm
    simp [predicateFn, hp, hc, hm]
  · intro h
    simp [predicateFn, hp, h]
  · intro h
    by_cases hcpu :
        up.cpuThresholds < usageOrZero node.ResourceUsage.CPUUsageAvg up.SamplePeriods
    · simp [predicateFn, hp, hcpu]
    · simp [predicateFn, hp, hcpu, h]

/-- Witness for claim C2: both utilizations exactly at the default
threshold 80 pass the filter. -/
theorem predicate_threshold_boundary_witness :
    predicateFn pDefault wTask wBoundaryNode = none :=
  (predicate_threshold_boundary pDefault wTask wBoundaryNode (by decide)).1
    (by decide) (by decide)

/-- Claim C3: with a non-empty samplePeriod and a CPU utilization entry u for
that period, the score is ((100 - u) / 100) * MaxNodeScore * weight; u = 0
yields MaxNodeScore * weight, u = 100 yields 0, and the error component of
the scoring function is always none. -/
theorem nodeOrder_score_formula (up : UsagePlugin) (task : TaskInfo)
    (node : NodeInfo) (u : ℚ) (hp : up.SamplePeriods ≠ "")
    (hu : lookupUsage node.ResourceUsage.CPUUsageAvg up.SamplePeriods = some u) :
    nodeOrderFn up task node
      = (((100 : ℚ) - u) / 100 * ((MaxNodeScore * up.weight : ℤ) : ℚ), none)
  ∧ (u = 0 → (nodeOrderFn up task node).1 = ((MaxNodeScore * up.weight : ℤ) : ℚ))
  ∧ (u = 100 → (nodeOrderFn up task node).1 = 0)
  ∧ (∀ t : TaskInfo, ∀ n : NodeInfo, (nodeOrderFn up t n).2 = none) := by
  have hmain : nodeOrderFn up task node
      = (((100 : ℚ) - u) / 100 * ((MaxNodeScore * up.weight : ℤ) : ℚ), none) := by
    simp [nodeOrderFn, hp, hu]
  refine ⟨hmain, ?_, ?_, ?_⟩
  · intro h0
    rw [hmain, h0]
    norm_num
  · intro h100
    rw [hmain, h100]
    norm_num
  · intro t n
    by_cases h : up.SamplePeriods = ""
    · simp [nodeOrderFn, h]
    · cases hl : lookupUsage n.ResourceUsage.CPUUsageAvg up.SamplePeriods
      · simp [nodeOrderFn, h, hl]
      · simp [nodeOrderFn, h, hl]

/-- Witness for claim C3 at utilization 30 under the default configuration. -/
theorem nodeOrder_score_formula_witness :
    nodeOrderFn pDefault wTask wNode30
      = (((100 : ℚ) - 30) / 100 * ((MaxNodeScore * pDefault.weight : ℤ) : ℚ), none) :=
  (nodeOrder_score_formula pDefault wTask wNode30 30 (by decide) (by decide)).1

/-- Claim C5: with a non-empty samplePeriod and no utilization entries for
that period, and thresholds within their documented nonnegative range, the
filter passes (the missing entries read as zero) and the score is 0. -/
theorem missing_entries_pass_zero (up : UsagePlugin) (task : TaskInfo)
    (node : NodeInfo) (hp : up.SamplePeriods ≠ "")
    (hc : lookupUsage node.ResourceUsage.CPUUsageAvg up.SamplePeriods = none)
    (hm : lookupUsage node.ResourceUsage.MEMUsageAvg up.SamplePeriods = none)
    (hct : 0 ≤ up.cpuThresholds) (hmt : 0 ≤ up.memThresholds) :
    predicateFn up task node = none ∧ nodeOrderFn up task node = (0, none) := by
  constructor
  · have h1 : ¬ up.cpuThresholds <
        usageOrZero node.ResourceUsage.CPUUsageAvg up.SamplePeriods := by
      rw [usageOrZero, hc]
      simpa using hct
    have h2 : ¬ up.memThresholds <
        usageOrZero node.ResourceUsage.MEMUsageAvg up.SamplePeriods := by
      rw [usageOrZero, hm]
      simpa using hmt
    simp [predicateFn, hp, h1, h2]
  · simp [nodeOrderFn, hp, hc]

/-- Witness for claim C5 at the default configuration and a node with no
utilization entries. -/
theorem missing_entries_pass_zero_witness :
    predicateFn pDefault wTask wEmptyNode = none
  ∧ nodeOrderFn pDefault wTask wEmptyNode = (0, none) :=
  missing_entries_pass_zero pDefault wTask wEmptyNode (by decide) rfl rfl
    (by decide) (by decide)

/-- Claim C7: for a fixed plugin with nonnegative weight, the score is
monotonically non-increasing in the CPU utilization entry for the period:
u1 < u2 implies score at u2 is at most score at u1. -/
theorem score_monotone_nonincreasing (up : UsagePlugin) (task : TaskInfo)
    (n1 n2 : NodeInfo) (u1 u2 : ℚ)
    (h1 : lookupUsage n1.ResourceUsage.CPUUsageAvg up.SamplePeriods = some u1)
    (h2 : lookupUsage n2.ResourceUsage.CPUUsageAvg up.SamplePeriods = some u2)
    (hw : 0 ≤ up.weight) (hu : u1 < u2) :
    (nodeOrderFn up task n2).1 ≤ (nodeOrderFn up task n1).1 := by
  by_cases hp : up.SamplePeriods = ""
  · simp [nodeOrderFn, hp]
  · have hcast : (0 : ℚ) ≤ ((MaxNodeScore * up.weight : ℤ) : ℚ) := by
      have hz : (0 : ℤ) ≤ MaxNodeScore * up.weight := by
        apply mul_nonneg _ hw
        norm_num [MaxNodeScore]
      exact_mod_cast hz
    have e1 : nodeOrderFn up task n1
        = (((100 : ℚ) - u1) / 100 * ((MaxNodeScore * up.weight : ℤ) : ℚ), none) := by
      simp [nodeOrderFn, hp, h1]
    have e2 : nodeOrderFn up task n2
        = (((100 : ℚ) - u2) / 100 * ((MaxNodeScore * up.weight : ℤ) : ℚ), none) := by
      simp [nodeOrderFn, hp, h2]
    rw [e1, e2]
    show ((100 : ℚ) - u2) / 100 * ((MaxNodeScore * up.weight : ℤ) : ℚ)
      ≤ ((100 : ℚ) - u1) / 100 * ((MaxNodeScore * up.weight : ℤ) : ℚ)
    apply mul_le_mul_of_nonneg_right _ hcast
    linarith

/-- Witness for claim C7 comparing utilizations 30 and 60 under the default
configuration. -/
theorem score_monotone_nonincreasing_witness :
    (nodeOrderFn pDefault wTask wNode60).1 ≤ (nodeOrderFn pDefault wTask wNode30).1 :=
  score_monotone_nonincreasing pDefault wTask wNode30 wNode60 30 60
    (by decide) (by decide) (by decide) (by decide)

/-- Arguments binding "thresholds.cpu" to the integer -5. -/
def negArgs : List (String × ArgValue) :=
  [("thresholds", ArgValue.map [(ArgValue.str "cpu", ArgValue.int (-5))])]

/-- Claim C10: thresholds are not validated against the 0-100 range; a
configuration binding "thresholds.cpu" to -5 is accepted, and a node with no
CPU utilization entry for the period (looked up as 0) is rejected by the
filter because 0 strictly exceeds -5. -/
theorem negative_threshold_rejects_missing_entry :
    (OnSessionOpen (New negArgs) negSession "10m").plugin.cpuThresholds = -5
  ∧ ((predicateFn (OnSessionOpen (New negArgs) negSession "10m").plugin
        wTask wEmptyNode).isSome = true) := by
  constructor
  · decide
  · decide

/-! Helper lemmas about `OnSessionOpen` and `runSessions`. -/

/-- A single threshold-loop iteration never touches the sample period. -/
theorem applyThresholdEntry_SamplePeriods (p : UsagePlugin)
    (kv : ArgValue × ArgValue) :
    (applyThresholdEntry p kv).SamplePeriods = p.SamplePeriods := by
  unfold applyThresholdEntry
  by_cases h1 : goAsString kv.1 = "cpu"
  · simp [h1]
  · by_cases h2 : goAsString kv.1 = "mem" <;> simp [h1, h2]

/-- The threshold loop never touches the sample period (fold form). -/
theorem foldl_applyThresholdEntry_SamplePeriods (l : List (ArgValue × ArgValue)) :
    ∀ p : UsagePlugin, (l.foldl applyThresholdEntry p).SamplePeriods = p.SamplePeriods := by
  induction l with
  | nil => intro p; rfl
  | cons kv t ih =>
      intro p
      rw [List.foldl_cons, ih, applyThresholdEntry_SamplePeriods]

/-- Threshold parsing never touches the sample period. -/
theorem applyThresholds_SamplePeriods (p : UsagePlugin) (av : ArgValue) :
    (applyThresholds p av).SamplePeriods = p.SamplePeriods :=
  foldl_applyThresholdEntry_SamplePeriods (asThresholdMap av) p

/-- When a "thresholds" section is present, the plugin registered with the
session is the one produced by the threshold-parsing loop, whatever the
bootstrap did. -/
theorem OnSessionOpen_plugin_of_thresholds (up : UsagePlugin) (ssn : Session)
    (period : String) (av : ArgValue)
    (h : lookupArg up.pluginArguments thresholdSection = some av) :
    (OnSessionOpen up ssn period).plugin = applyThresholds up av := by
  unfold OnSessionOpen
  rw [h]
  by_cases hp : period = ""
  · by_cases hc : ssn.cache.isSchedulerCache <;> simp [hp, hc]
  · simp [hp]

/-- Characterization of the bootstrap gate and of the period it leaves
behind: the bootstrap runs exactly when a "thresholds" section is present and
the global period is empty; when it runs the global period becomes the
plugin's sample period, otherwise it is left unchanged. -/
theorem OnSessionOpen_cases (up : UsagePlugin) (ssn : Session) (period : String) :
    ((OnSessionOpen up ssn period).bootstrapRan
        = ((lookupArg up.pluginArguments thresholdSection).isSome
            && decide (period = "")))
  ∧ ((OnSessionOpen up ssn period).bootstrapRan = true →
        (OnSessionOpen up ssn period).Period = up.SamplePeriods)
  ∧ ((OnSessionOpen up ssn period).bootstrapRan = false →
        (OnSessionOpen up ssn period).Period = period) := by
  cases harg : lookupArg up.pluginArguments thresholdSection with
  | none =>
      unfold OnSessionOpen
      rw [harg]
      simp
  | some av =>
      unfold OnSessionOpen
      rw [harg]
      by_cases hp : period = ""
      · by_cases hcc : ssn.cache.isSchedulerCache <;>
          simp [hp, hcc, applyThresholds_SamplePeriods]
      · simp [hp]

/-- A run started from a non-empty global period never bootstraps and leaves
the period unchanged. -/
theorem runSessions_of_ne_empty (l : List (UsagePlugin × Session)) :
    ∀ period : String, period ≠ "" → runSessions l period = (period, 0) := by
  induction l with
  | nil => intro period _; rfl
  | cons x t ih =>
      intro period h
      obtain ⟨up, ssn⟩ := x
      have hb : (OnSessionOpen up ssn period).bootstrapRan = false := by
        rw [(OnSessionOpen_cases up ssn period).1]
        simp [h]
      have hper : (OnSessionOpen up ssn period).Period = period :=
        (OnSessionOpen_cases up ssn period).2.2 hb
      simp only [runSessions]
      rw [hb, hper, ih period h]
      simp

/-- Arguments binding "thresholds.cpu" to a non-integer (a string). -/
def badCpuArgs : List (String × ArgValue) :=
  [("thresholds", ArgValue.map [(ArgValue.str "cpu", ArgValue.str "high")])]

/-- Counterexample to claim C1 as stated: with "thresholds.cpu" bound to the
string "high", resolution does not leave cpuThresholdPct at its default 80;
the ignored failed type assertion yields Go's zero value and the switch
assigns 0. -/
theorem nonint_cpu_threshold_overwritten :
    (OnSessionOpen (New badCpuArgs) negSession "10m").plugin.cpuThresholds = 0
  ∧ ¬ (OnSessionOpen (New badCpuArgs) negSession "10m").plugin.cpuThresholds = 80 := by
  constructor
  · decide
  · decide

/-- Claim C1 as amended: a "thresholds" sub-key "cpu" (or "mem") bound to a
non-integer value sets the corresponding threshold to 0 (the zero value of
the ignored failed type assertion), not to its prior/default value. -/
theorem nonint_threshold_sets_zero (up : UsagePlugin) (ssn : Session)
    (period : String) (v : ArgValue) (hv : ∀ n : ℤ, v ≠ ArgValue.int n)
    (hargs : lookupArg up.pluginArguments thresholdSection
      = some (ArgValue.map [(ArgValue.str "cpu", v), (ArgValue.str "mem", v)])) :
    (OnSessionOpen up ssn period).plugin.cpuThresholds = 0
  ∧ (OnSessionOpen up ssn period).plugin.memThresholds = 0 := by
  have hz : goAsInt v = 0 := by
    cases v with
    | int n => exact absurd rfl (hv n)
    | str s => rfl
    | map m => rfl
    | other => rfl
  have happ : applyThresholds up
      (ArgValue.map [(ArgValue.str "cpu", v), (ArgValue.str "mem", v)])
      = { up with cpuThresholds := ((goAsInt v : ℤ) : ℚ)
                  memThresholds := ((goAsInt v : ℤ) : ℚ) } := rfl
  rw [OnSessionOpen_plugin_of_thresholds up ssn period _ hargs, happ, hz]
  constructor <;> simp

/-- Arguments binding both threshold sub-keys to a non-integer. -/
def badBothArgs : List (String × ArgValue) :=
  [("thresholds", ArgValue.map
      [(ArgValue.str "cpu", ArgValue.str "high"),
       (ArgValue.str "mem", ArgValue.str "high")])]

/-- Witness for the amended claim C1 at a concrete configuration. -/
theorem nonint_threshold_sets_zero_witness :
    (OnSessionOpen (New badBothArgs) negSession "10m").plugin.cpuThresholds = 0
  ∧ (OnSessionOpen (New badBothArgs) negSession "10m").plugin.memThresholds = 0 :=
  nonint_threshold_sets_zero (New badBothArgs) negSession "10m"
    (ArgValue.str "high") (fun _ h => ArgValue.noConfusion h) rfl

/-- Claim C9: when the cache downcast fails during bootstrap, the indicator
assignment and the metrics refresh still happen (in that order), but the
snapshot copy is skipped and the session's node list is left as it was. -/
theorem cast_failure_skips_snapshot_copy (up : UsagePlugin) (ssn : Session)
    (av : ArgValue)
    (ht : lookupArg up.pluginArguments thresholdSection = some av)
    (hc : ssn.cache.isSchedulerCache = false) :
    (OnSessionOpen up ssn "").bootstrapRan = true
  ∧ (OnSessionOpen up ssn "").Period = up.SamplePeriods
  ∧ (OnSessionOpen up ssn "").events
      = [BootstrapEvent.setPeriod up.SamplePeriods, BootstrapEvent.getMetricsData]
  ∧ (OnSessionOpen up ssn "").NodeList = ssn.NodeList := by
  have hsp := applyThresholds_SamplePeriods up av
  unfold OnSessionOpen
  rw [ht]
  simp [hc, hsp]

/-- A plugin whose configuration has a (trivial) thresholds section. -/
def pThresh : UsagePlugin := New [("thresholds", ArgValue.map [])]

/-- Witness for claim C9 at a concrete plugin and session. -/
theorem cast_failure_skips_snapshot_copy_witness :
    (OnSessionOpen pThresh negSession "").bootstrapRan = true
  ∧ (OnSessionOpen pThresh negSession "").Period = pThresh.SamplePeriods
  ∧ (OnSessionOpen pThresh negSession "").events
      = [BootstrapEvent.setPeriod pThresh.SamplePeriods, BootstrapEvent.getMetricsData]
  ∧ (OnSessionOpen pThresh negSession "").NodeList = negSession.NodeList :=
  cast_failure_skips_snapshot_copy pThresh negSession (ArgValue.map []) rfl rfl

/-- A configuration with a thresholds section and an empty sample period. -/
def emptyPeriodArgs : List (String × ArgValue) :=
  [("thresholds", ArgValue.map []), ("period", ArgValue.str "")]

/-- The plugin resolved from `emptyPeriodArgs`. -/
def pNoPeriod : UsagePlugin := New emptyPeriodArgs

/-- Counterexample to claim C6 as stated: with samplePeriod configured empty,
the indicator is set back to the empty string, so the bootstrap runs in both
of two consecutive sessions of the same process — not at most once. -/
theorem bootstrap_twice_with_empty_period :
    (runSessions [(pNoPeriod, negSession), (pNoPeriod, negSession)] "").2 = 2 := by
  decide

/-- Claim C6 as amended: the bootstrap runs exactly when the configuration
has a "thresholds" section and the global period indicator is empty; when it
runs it first sets the indicator to the plugin's sample period, then invokes
the metrics refresh, then (when the cache downcast succeeds) copies each
session node's snapshot from the cache; and it runs at most once per process
lifetime provided the configured sample period is non-empty. -/
theorem bootstrap_gating_order_once :
    (∀ (up : UsagePlugin) (ssn : Session) (period : String),
        (OnSessionOpen up ssn period).bootstrapRan = true
          ↔ (lookupArg up.pluginArguments thresholdSection).isSome = true
            ∧ period = "")
  ∧ (∀ (up : UsagePlugin) (ssn : Session) (period : String),
        (OnSessionOpen up ssn period).bootstrapRan = true →
          (OnSessionOpen up ssn period).events
              = BootstrapEvent.setPeriod up.SamplePeriods
                :: BootstrapEvent.getMetricsData
                :: (if ssn.cache.isSchedulerCache then [BootstrapEvent.copySnapshots] else [])
          ∧ (OnSessionOpen up ssn period).Period = up.SamplePeriods
          ∧ (ssn.cache.isSchedulerCache = true →
              (OnSessionOpen up ssn period).NodeList
                = ssn.NodeList.map
                    (fun n => { n with ResourceUsage := ssn.cache.Nodes n.Name })))
  ∧ (∀ (l : List (UsagePlugin × Session)) (period : String),
        (∀ x ∈ l, x.1.SamplePeriods ≠ "") → (runSessions l period).2 ≤ 1) := by
  refine ⟨?_, ?_, ?_⟩
  · intro up ssn period
    rw [(OnSessionOpen_cases up ssn period).1]
    simp
  · intro up ssn period hb
    cases harg : lookupArg up.pluginArguments thresholdSection with
    | none =>
        exfalso
        unfold OnSessionOpen at hb
        rw [harg] at hb
        simp at hb
    | some av =>
        unfold OnSessionOpen at hb ⊢
        rw [harg] at hb ⊢
        by_cases hp : period = ""
        · by_cases hcc : ssn.cache.isSchedulerCache <;>
            simp [hp, hcc, applyThresholds_SamplePeriods]
        · simp [hp] at hb
  · intro l
    induction l with
    | nil =>
        intro period _
        simp [runSessions]
    | cons x t ih =>
        intro period hall
        obtain ⟨up, ssn⟩ := x
        have hall' : ∀ y ∈ t, y.1.SamplePeriods ≠ "" :=
          fun y hy => hall y (List.mem_cons_of_mem _ hy)
        by_cases hp : period = ""
        · subst hp
          by_cases hb : (OnSessionOpen up ssn "").bootstrapRan = true
          · have hper : (OnSessionOpen up ssn "").Period = up.SamplePeriods :=
              (OnSessionOpen_cases up ssn "").2.1 hb
            have hne : up.SamplePeriods ≠ "" :=
              hall (up, ssn) (List.mem_cons_self _ _)
            simp only [runSessions]
            rw [hb, hper, runSessions_of_ne_empty t _ hne]
            simp
          · have hb' : (OnSessionOpen up ssn "").bootstrapRan = false := by
              simpa using hb
            have hper : (OnSessionOpen up ssn "").Period = "" :=
              (OnSessionOpen_cases up ssn "").2.2 hb'
            simp only [runSessions]
            rw [hb', hper]
            simpa using ih "" hall'
        · rw [runSessions_of_ne_empty ((up, ssn) :: t) period hp]
          simp

/-- Witness for the amended claim C6: a concrete single-session process with
a non-empty sample period bootstraps at most once. -/
theorem bootstrap_gating_order_once_witness :
    (runSessions [(pThresh, negSession)] "").2 ≤ 1 :=
  bootstrap_gating_order_once.2.2 [(pThresh, negSession)] ""
    (by
      intro x hx
      rw [List.mem_singleton] at hx
      subst hx
      decide)
